import Mathlib

/-!
Verification of the SkillTrainerBot backend (`backend/main.py`, `backend/state.py`,
`backend/ai.py`) against its natural-language specification. The Python code is
shallowly embedded: dictionaries that represent outbound actions become the
`Action` structure, the insertion-ordered `dict` used by `dedup_actions` becomes
an association list with order-preserving update, and the per-conversation
record becomes the `UserProgress` structure.
-/

namespace STB

/-- One inline-keyboard button, `{"text": ..., "data": ...}` in the source. -/
structure Button where
  text : String
  data : String
deriving DecidableEq, Repr

/-- The `keyboard` field of an action: either Python `None` or
`{"inline": rows}` as produced by `inline_keyboard`. -/
inductive Keyboard where
  | none
  | inline (rows : List (List Button))
deriving DecidableEq, Repr

/-- An outbound action dictionary. `send_message_action` in the source always
fills `type`, `chat_id`, `text`, `parse_mode` and `keyboard`; non-message
actions are also represented by this shape (only `type` matters for them in
`dedup_actions`). -/
structure Action where
  type : String
  chat_id : Int
  text : String
  parse_mode : String
  keyboard : Keyboard
deriving DecidableEq, Repr

/-- `inline_keyboard(options)` from `backend/main.py`. -/
def inline_keyboard (rows : List (List Button)) : Keyboard :=
  Keyboard.inline rows

/-- `send_message_action(chat_id, text, keyboard=None)` from `backend/main.py`. -/
def send_message_action (chat_id : Int) (text : String) (keyboard : Keyboard) : Action :=
  { type := "send_message", chat_id := chat_id, text := text,
    parse_mode := "HTML", keyboard := keyboard }

/-- `bool(keyboard_raw)` in `dedup_actions`: the keyboard counts as present
when it is a dict whose `"inline"` list is non-empty (a `None` keyboard is
falsy). -/
def hasKeyboard (a : Action) : Bool :=
  match a.keyboard with
  | Keyboard.none => false
  | Keyboard.inline rows => !rows.isEmpty

/-- The merge key `(text, parse_mode)` computed by `dedup_actions`:
`str(act.get("text") or "")` and `str(act.get("parse_mode") or "HTML")`
(an empty `parse_mode` string is falsy in Python and becomes `"HTML"`). -/
def normKey (a : Action) : String × String :=
  (a.text, if a.parse_mode = "" then ("HTML") else a.parse_mode)

/-- An entry of the `best_by_text` dict: the stored action copy together with
its `__has_keyboard` marker (absent markers read as falsy, modelled `false`). -/
structure DEntry where
  act : Action
  hasKb : Bool
deriving DecidableEq, Repr

/-- The insertion-ordered dict `best_by_text`, keyed by string pairs. -/
abbrev DMap := List ((String × String) × DEntry)

/-- Python dict lookup `best_by_text.get(key)`. -/
def findEntry (m : DMap) (k : String × String) : Option DEntry :=
  (m.find? (fun p => p.1 = k)).map (fun p => p.2)

/-- Python dict assignment on an existing key: the value is replaced in place,
the stored key and its position are kept. Only used when the key is present. -/
def updateEntry (m : DMap) (k : String × String) (v : DEntry) : DMap :=
  m.map (fun p => if p.1 = k then (p.1, v) else p)

/-- One iteration of the `for act in actions` loop of `dedup_actions`.
Non-`send_message` actions are inserted under the synthetic key
`("__other__", str(len(best_by_text)))` via `setdefault`; message actions are
keyed by `normKey` and replace an existing entry exactly when they carry a
keyboard and the stored entry does not. -/
def dedupStep (m : DMap) (a : Action) : DMap :=
  if a.type ≠ "send_message" then
    match findEntry m ("__other__", toString m.length) with
    | some _ => m
    | Option.none => m ++ [(("__other__", toString m.length), { act := a, hasKb := false })]
  else
    match findEntry m (normKey a) with
    | Option.none => m ++ [(normKey a, { act := a, hasKb := hasKeyboard a })]
    | some e =>
        if hasKeyboard a && !e.hasKb then
          updateEntry m (normKey a) { act := a, hasKb := hasKeyboard a }
        else m

/-- `dedup_actions(actions)` from `backend/main.py`: fold the loop over the
input, then emit the stored actions in dict insertion order (the final loop
appends every entry, dropping the `__has_keyboard` marker). -/
def dedup_actions (actions : List Action) : List Action :=
  (actions.foldl dedupStep []).map (fun p => p.2.act)

-- backend/ai.py ---------------------------------------------------------------

/-- Python `str.lower`, character-wise (`String.mk`/`data` keep every string
operation kernel-computable; `Char.toLower` is ASCII-correct, which covers
every case split the code performs). -/
def pyLower (s : String) : String :=
  String.mk (s.data.map Char.toLower)

/-- Python `str.strip()`: drop leading and trailing whitespace. -/
def pyStrip (s : String) : String :=
  String.mk (((s.data.dropWhile Char.isWhitespace).reverse.dropWhile Char.isWhitespace).reverse)

/-- Python `str.startswith(pre)`. -/
def pyStartsWith (s pre : String) : Bool :=
  pre.data.isPrefixOf s.data

/-- Drop the first `n` characters (`split(pre, 1)[1]` for a length-`n` ASCII
prefix the string is known to start with). -/
def pyDrop (s : String) (n : Nat) : String :=
  String.mk (s.data.drop n)

/-- Python substring test `needle in hay` on strings. -/
def containsSub (hay needle : String) : Bool :=
  hay.toList.tails.any (fun t => needle.toList.isPrefixOf t)

/-- Helper for `pyWords`: count of maximal non-whitespace runs. -/
def wordsAux : List Char → List Char → Nat
  | [], acc => if acc.isEmpty then 0 else 1
  | c :: rest, acc =>
      if c.isWhitespace then
        (if acc.isEmpty then 0 else 1) + wordsAux rest []
      else wordsAux rest (c :: acc)

/-- `len(text.split())`: split on whitespace runs, empties discarded. -/
def pyWords (text : String) : Nat :=
  wordsAux text.data []

/-- The two success replies `random.choice` picks between in `evaluate_answer`. -/
def goodReplies : List String :=
  ["Отлично: есть конкретика и фокус на действия. Давай двигаться дальше.",
   "Хорошо сформулировано, видно рабочие шаги. Готов к следующему кейсу."]

/-- The fixed reply returned for a not-good answer in `evaluate_answer`. -/
def badReply : String :=
  "Ответ пока поверхностный. Добавь конкретики: примеры, действия, ожидания. Попробуем ещё раз?"

/-- `Settings.ai_positive_keywords` from `backend/config.py`. -/
def ai_positive_keywords : List String :=
  ["конструктив", "конкретно", "действия", "пример", "ожидания"]

/-- `evaluate_answer(text, settings)` from `backend/ai.py`. The hidden state of
`random.choice` over the two success replies is made explicit as the `choice`
parameter (the picked index is `choice % 2`); `pyLower` stands in for Python
`str.lower`. -/
def evaluate_answer (text : String) (keywords : List String) (choice : Nat) : Bool × String :=
  let lower := pyLower text
  let kwScore := (keywords.filter (fun kw => containsSub lower kw)).length
  let score := kwScore + (if 12 < pyWords text then 1 else 0)
  if 2 ≤ score then
    (true, goodReplies.getD (choice % goodReplies.length) (""))
  else
    (false, badReply)

/-- `interpret_diagnostic(answers)` from `backend/ai.py`; the comparison
`positives >= len(answers) / 2` (float division) is the integer condition
`len(answers) ≤ 2 * positives`. -/
def interpret_diagnostic (answers : List String) : String :=
  if answers = [] then ("Диагностика не заполнена.")
  else
    let positives :=
      (answers.filter (fun a => containsSub (pyLower a) ("сильн") || containsSub (pyLower a) ("ок"))).length
    if answers.length ≤ 2 * positives then
      "Уровень базовый/средний: есть сильные стороны, но стоит потренировать структурность."
    else
      "Диагностика показывает зоны роста: обратная связь пока размыта. Предлагаю начать с тренажёра и закрепить формат."

-- backend/state.py: UserProgress --------------------------------------------

/-- One diagnostic question `{"text": ..., "options": [...]}` as stored in
`UserProgress.diagnostic_questions` and consumed by
`diagnostic_question_payload`. -/
structure Question where
  text : String
  options : List String
deriving DecidableEq, Repr

/-- The `UserProgress` dataclass of `backend/state.py`. `training_index` is
only ever assigned `0` or incremented, so it is modelled as `Nat`. -/
structure UserProgress where
  diagnostic_answers : List String := []
  diagnostic_done : Bool := false
  training_index : Nat := 0
  training_case_pending : Bool := false
  skill : String := "feedback"
  skill_chosen : Bool := false
  skill_pending : Bool := false
  sphere : String := "general"
  sphere_chosen : Bool := false
  sphere_pending : Bool := false
  last_reminder : Option String := none
  diagnostic_questions : List Question := []
  training_cases : List String := []
deriving DecidableEq, Repr

/-- A default-initialized `UserProgress()` record. -/
def defaultProgress : UserProgress := {}

/-- Field updates performed by `StateStore.reset_diagnostic`. -/
def reset_diagnostic_rec (st : UserProgress) : UserProgress :=
  { st with diagnostic_answers := [], diagnostic_done := false, diagnostic_questions := [] }

/-- Field updates performed by `StateStore.increment_training`. -/
def increment_training_rec (st : UserProgress) : UserProgress :=
  { st with training_index := st.training_index + 1, training_case_pending := true }

/-- Field updates performed by `StateStore.set_skill`. -/
def set_skill_rec (st : UserProgress) (skill : String) : UserProgress :=
  { st with
    skill := skill
    skill_chosen := true
    skill_pending := false
    training_cases := []
    training_index := 0
    training_case_pending := false }

/-- Field updates performed by `StateStore.set_skill_pending`. -/
def set_skill_pending_rec (st : UserProgress) (pending : Bool) : UserProgress :=
  { st with skill_pending := pending }

/-- Field updates performed by `StateStore.set_sphere`. -/
def set_sphere_rec (st : UserProgress) (sphere : String) : UserProgress :=
  { st with
    sphere := sphere
    sphere_chosen := true
    sphere_pending := false
    diagnostic_questions := [] }

/-- Field updates performed by `StateStore.set_sphere_pending`: the extra
resets happen only when `pending` is true. -/
def set_sphere_pending_rec (st : UserProgress) (pending : Bool) : UserProgress :=
  if pending then
    { st with
      sphere_pending := pending
      sphere_chosen := false
      training_case_pending := false
      training_index := 0
      training_cases := [] }
  else
    { st with sphere_pending := pending }

/-- Field updates performed by `StateStore.set_training_pending`. -/
def set_training_pending_rec (st : UserProgress) (pending : Bool) : UserProgress :=
  { st with training_case_pending := pending }

-- backend/state.py: to_dict / from_dict --------------------------------------

/-- Python values appearing in a `UserProgress.to_dict()` dictionary. -/
inductive PyVal where
  | pBool (b : Bool)
  | pNat (n : Nat)
  | pStr (s : String)
  | pOptStr (s : Option String)
  | pQList (l : List Question)
  | pStrList (l : List String)
deriving DecidableEq, Repr

/-- A Python dict with string keys, as an insertion-ordered association list. -/
abbrev PyDict := List (String × PyVal)

/-- `data.get(key)`. -/
def dget (d : PyDict) (k : String) : Option PyVal :=
  (d.find? (fun p => p.1 = k)).map (fun p => p.2)

/-- Python truthiness `bool(v)` for the values above. -/
def pyBool : PyVal → Bool
  | PyVal.pBool b => b
  | PyVal.pNat n => n ≠ 0
  | PyVal.pStr s => s ≠ ""
  | PyVal.pOptStr s => s.isSome && s ≠ some ("")
  | PyVal.pQList l => !l.isEmpty
  | PyVal.pStrList l => !l.isEmpty

/-- `UserProgress.to_dict` = `dataclasses.asdict`, fields in declaration
order. -/
def UserProgress.to_dict (p : UserProgress) : PyDict :=
  [("diagnostic_answers", PyVal.pStrList p.diagnostic_answers),
   ("diagnostic_done", PyVal.pBool p.diagnostic_done),
   ("training_index", PyVal.pNat p.training_index),
   ("training_case_pending", PyVal.pBool p.training_case_pending),
   ("skill", PyVal.pStr p.skill),
   ("skill_chosen", PyVal.pBool p.skill_chosen),
   ("skill_pending", PyVal.pBool p.skill_pending),
   ("sphere", PyVal.pStr p.sphere),
   ("sphere_chosen", PyVal.pBool p.sphere_chosen),
   ("sphere_pending", PyVal.pBool p.sphere_pending),
   ("last_reminder", PyVal.pOptStr p.last_reminder),
   ("diagnostic_questions", PyVal.pQList p.diagnostic_questions),
   ("training_cases", PyVal.pStrList p.training_cases)]

/-- `UserProgress.from_dict`: each field is `data.get(key, default)`, with
`bool(...)` applied to the boolean fields. Python stores the raw looked-up
value without a type check; on the dict shapes `to_dict` produces the
projections below read back exactly the stored value, and on any other
constructor they return the field's dataclass default. -/
def UserProgress.from_dict (d : PyDict) : UserProgress :=
  { diagnostic_answers :=
      match dget d ("diagnostic_answers") with
      | some (PyVal.pStrList l) => l
      | _ => []
    diagnostic_done := pyBool ((dget d ("diagnostic_done")).getD (PyVal.pBool false))
    training_index :=
      match dget d ("training_index") with
      | some (PyVal.pNat n) => n
      | _ => 0
    training_case_pending := pyBool ((dget d ("training_case_pending")).getD (PyVal.pBool false))
    skill :=
      match dget d ("skill") with
      | some (PyVal.pStr s) => s
      | _ => "feedback"
    skill_chosen := pyBool ((dget d ("skill_chosen")).getD (PyVal.pBool false))
    skill_pending := pyBool ((dget d ("skill_pending")).getD (PyVal.pBool false))
    sphere :=
      match dget d ("sphere") with
      | some (PyVal.pStr s) => s
      | _ => "general"
    sphere_chosen := pyBool ((dget d ("sphere_chosen")).getD (PyVal.pBool false))
    sphere_pending := pyBool ((dget d ("sphere_pending")).getD (PyVal.pBool false))
    last_reminder :=
      match dget d ("last_reminder") with
      | some (PyVal.pOptStr s) => s
      | _ => none
    diagnostic_questions :=
      match dget d ("diagnostic_questions") with
      | some (PyVal.pQList l) => l
      | _ => []
    training_cases :=
      match dget d ("training_cases") with
      | some (PyVal.pStrList l) => l
      | _ => [] }

-- backend/state.py: StateStore ------------------------------------------------

/-- The `StateStore` together with the `ProgressDB` table it writes through:
`cache` is the in-memory `_store` dict, `db` the durable rows (kept at the
dict level of `save_progress`/`get_progress`). -/
structure StoreState where
  cache : Int → Option UserProgress
  db : Int → Option PyDict

/-- Point update of a keyed map. -/
def updf {α : Type} (f : Int → Option α) (id : Int) (v : Option α) : Int → Option α :=
  fun j => if j = id then v else f j

namespace StateStore

/-- `StateStore.get`: serve from cache; on a miss load `from_dict` of the
durable row, else a fresh default record; cache the result. -/
def get (s : StoreState) (id : Int) : UserProgress × StoreState :=
  match s.cache id with
  | some st => (st, s)
  | none =>
      match s.db id with
      | some d =>
          let st := UserProgress.from_dict d
          (st, { s with cache := updf s.cache id (some st) })
      | none => (defaultProgress, { s with cache := updf s.cache id (some defaultProgress) })

/-- The shared shape of every mutating setter:
`state = self._store.setdefault(chat_id, UserProgress())`, apply the field
updates, then `_save_to_db(chat_id, state)`. The durable copy is never
consulted. -/
def mutate (s : StoreState) (id : Int) (f : UserProgress → UserProgress) : StoreState :=
  let st := (s.cache id).getD defaultProgress
  let st := f st
  { cache := updf s.cache id (some st), db := updf s.db id (some st.to_dict) }

/-- `StateStore.reset_diagnostic`. -/
def reset_diagnostic (s : StoreState) (id : Int) : StoreState :=
  mutate s id reset_diagnostic_rec

/-- `StateStore.increment_training` (the returned new index is
`((mutate ...).cache id).training_index`). -/
def increment_training (s : StoreState) (id : Int) : StoreState :=
  mutate s id increment_training_rec

/-- `StateStore.set_skill`. -/
def set_skill (s : StoreState) (id : Int) (skill : String) : StoreState :=
  mutate s id (fun st => set_skill_rec st skill)

/-- `StateStore.set_skill_pending`. -/
def set_skill_pending (s : StoreState) (id : Int) (pending : Bool) : StoreState :=
  mutate s id (fun st => set_skill_pending_rec st pending)

/-- `StateStore.set_sphere`. -/
def set_sphere (s : StoreState) (id : Int) (sphere : String) : StoreState :=
  mutate s id (fun st => set_sphere_rec st sphere)

/-- `StateStore.set_sphere_pending`. -/
def set_sphere_pending (s : StoreState) (id : Int) (pending : Bool) : StoreState :=
  mutate s id (fun st => set_sphere_pending_rec st pending)

/-- `StateStore.set_training_pending`. -/
def set_training_pending (s : StoreState) (id : Int) (pending : Bool) : StoreState :=
  mutate s id (fun st => set_training_pending_rec st pending)

end StateStore

-- backend/main.py: payload builders ------------------------------------------

/-- `diagnostic_question_payload(idx, total, chat_id, question)`: one button
row per non-blank option, `data = "diag:<questionIdx>:<optionIdx>"` with the
option index taken before blank options are skipped. -/
def diagnostic_question_payload (idx total : Nat) (chat_id : Int) (q : Question) : Action :=
  let options := q.options.enum.filterMap (fun p =>
    let t := pyStrip p.2
    if t = "" then none
    else some [Button.mk t (("diag:") ++ toString idx ++ (":") ++ toString p.1)])
  send_message_action chat_id
    (("Диагностика, вопрос ") ++ toString (idx + 1) ++ ("/") ++ toString total ++ (":\n\n") ++ q.text)
    (inline_keyboard options)

/-- `training_case_payload(skill, idx, chat_id, cases)`: the source checks
`idx >= len(cases)` before any list access, so the in-range branch indexes
`cases[idx]` under a proof and the function is total. -/
def training_case_payload (skill : String) (idx : Nat) (chat_id : Int)
    (cases : List String) : Action :=
  if h : cases.length ≤ idx then
    send_message_action chat_id
      ("Кейсы закончились. Можем пройти заново или выбрать другой навык.")
      (inline_keyboard
        [[Button.mk ("С начала") ("training:restart")],
         [Button.mk ("Выбрать навык") ("action:skill:feedback")],
         [Button.mk ("Назад в меню") ("action:start")]])
  else
    send_message_action chat_id
      (("Кейс ") ++ toString (idx + 1) ++ (":\n\n") ++ cases.get ⟨idx, by omega⟩)
      (inline_keyboard
        [[Button.mk ("Напомнить позже") ("remind:later")],
         [Button.mk ("В меню") ("action:start")],
         [Button.mk ("Выбрать навык") ("action:skill:feedback")]])

-- backend/main.py: external collaborators ------------------------------------

/-- One inbound `EventModel` (the fields `ingest` reads). -/
structure Event where
  type : String
  text : Option String := none
  data : Option String := none
  action : Option String := none
deriving DecidableEq, Repr

/-- Python `f"...{x}..."` rendering of an optional string (`None` prints as
`"None"`). -/
def pyStrOpt : Option String → String
  | none => "None"
  | some s => s

/-- The external collaborators of one `ingest` call, made explicit.
`aiEnabled` models `ai_client is not None and ai_client.enabled()`; each
`Option` result is `none` when the corresponding awaited call raises (and,
for `buildActions`, `some []` is the zero-action reply that `ingest` also
treats as a failure). `evalChoice` is the `random.choice` state used by the
heuristic evaluator.

Modelled from the spec: the module `data.py` (symbols `DIAGNOSTIC_QUESTIONS`,
`TRAINING_CASES_FEEDBACK`, `TRAINING_CASES_IDP`, `SPHERES`, `get_case`) is not
part of the source tree; per §4.2 the static catalogs are read-only,
skill-keyed lookup tables, so they appear here as parameters
(`staticDiagnostic` already in the mapped `{text, options}` form that
`ensure_diagnostic_questions` builds from `DIAGNOSTIC_QUESTIONS`). -/
structure Env where
  aiEnabled : Bool
  genDiagnostic : Option (List Question)
  genCases : Option (List String)
  summarize : Option String
  buildActions : Option (List Action)
  evalChoice : Nat
  keywords : List String
  staticDiagnostic : List Question
  casesFeedback : List String
  casesIdp : List String
  spheres : List (String × String)
  getCase : String → Nat → String

/-- `ensure_diagnostic_questions(state, settings, ai)` from `backend/main.py`:
with AI enabled and no stored questions, use the generator result (empty on
exception); the static catalog is used only when AI is NOT enabled (the
source comments this: "Only fallback to static when AI недоступен"). -/
def ensure_diagnostic_questions (env : Env) (st : UserProgress) :
    List Question × UserProgress :=
  let st :=
    if env.aiEnabled ∧ st.diagnostic_questions = [] then
      match env.genDiagnostic with
      | some qs => { st with diagnostic_questions := qs }
      | none => { st with diagnostic_questions := [] }
    else st
  let st :=
    if st.diagnostic_questions = [] ∧ ¬ env.aiEnabled then
      { st with diagnostic_questions := env.staticDiagnostic }
    else st
  (st.diagnostic_questions, st)

/-- `ensure_training_cases(state, skill, settings, ai)` from
`backend/main.py`: AI first when enabled (empty on exception), then an
unconditional static fallback keyed on `skill == "feedback"`. -/
def ensure_training_cases (env : Env) (st : UserProgress) (skill : String) :
    List String × UserProgress :=
  let st :=
    if env.aiEnabled ∧ st.training_cases = [] then
      match env.genCases with
      | some cs => { st with training_cases := cs }
      | none => { st with training_cases := [] }
    else st
  let st :=
    if st.training_cases = [] then
      { st with training_cases := if skill = "feedback" then env.casesFeedback else env.casesIdp }
    else st
  (st.training_cases, st)

-- backend/main.py: ingest -----------------------------------------------------

/-- The per-action post-processing of AI-built actions inside `ingest`:
`act["chat_id"] = chat`, and the two navigation rows are appended to the
(possibly missing) inline keyboard. -/
def attachNav (chat : Int) (a : Action) : Action :=
  let rows :=
    match a.keyboard with
    | Keyboard.none => []
    | Keyboard.inline rows => rows
  { a with
    chat_id := chat
    keyboard := Keyboard.inline (rows ++
      [[Button.mk ("В меню") ("action:start")],
       [Button.mk ("Выбрать навык") ("action:skill:feedback")]]) }

/-- `ai_says_next` in `ingest`: some button `data` starts with `"case:next"`. -/
def aiSaysNext (acts : List Action) : Bool :=
  acts.any (fun a =>
    match a.keyboard with
    | Keyboard.none => false
    | Keyboard.inline rows =>
        rows.any (fun row => row.any (fun b => pyStartsWith b.data ("case:next"))))

/-- The sphere-text prompt emitted by several branches of `ingest`. -/
def spherePromptAction (chat : Int) : Action :=
  send_message_action chat
    ("Напиши в чат свою специальность или сферу — введи её вручную.")
    (inline_keyboard [[Button.mk ("Отмена") ("action:start")]])

/-- The skill-text prompt emitted by several branches of `ingest`. -/
def skillPromptAction (chat : Int) : Action :=
  send_message_action chat
    ("Напиши, что хочешь потренировать (навык/тематику) — введи вручную.")
    (inline_keyboard [[Button.mk ("Отмена") ("action:start")]])

/-- The start-menu reply of `ingest`. -/
def startMenuAction (chat : Int) : Action :=
  send_message_action chat
    ("Привет! Я помогу натренировать нужные навыки под твой запрос. Выбери, с чего начать.")
    (inline_keyboard
      [[Button.mk ("Начать диагностику") ("action:diagnostic:start")],
       [Button.mk ("Перейти к тренажеру") ("action:training:start")],
       [Button.mk ("Напоминания") ("action:menu:reminders")],
       [Button.mk ("Сфера деятельности") ("action:sphere:menu")]])

/-- The "section unavailable" reply (`menu:progress` and `menu:toc`). -/
def unavailableAction (chat : Int) : Action :=
  send_message_action chat ("Этот раздел временно недоступен.")
    (inline_keyboard [[Button.mk ("В меню") ("action:start")]])

/-- The confirmation reply of the `sphere:<code>` branch. -/
def sphereChosenAction (chat : Int) (label : String) : Action :=
  send_message_action chat
    (("Сфера выбрана: ") ++ label ++ (". Можно начинать диагностику или тренажёр."))
    (inline_keyboard
      [[Button.mk ("Начать диагностику") ("action:diagnostic:start")],
       [Button.mk ("Перейти к тренажёру") ("action:training:start")],
       [Button.mk ("В меню") ("action:start")]])

/-- The reply of the `sphere:<code>` branch for an unknown code. -/
def unknownSphereAction (chat : Int) (spheres : List (String × String)) : Action :=
  send_message_action chat ("Неизвестная сфера. Выбери из списка.")
    (inline_keyboard (spheres.map (fun cl => [Button.mk cl.2 (("action:sphere:") ++ cl.1)])))

/-- The reply of `diagnostic:start` when no questions are available. -/
def diagFailAction (chat : Int) : Action :=
  send_message_action chat
    ("Не удалось получить вопросы диагностики от AI. Попробуйте позже.")
    (inline_keyboard [[Button.mk ("В меню") ("action:start")]])

/-- The `menu:reminders` reply. -/
def remindersMenuAction (chat : Int) : Action :=
  send_message_action chat
    ("Напоминания включены по запросу. Хочешь получить напоминание позже?")
    (inline_keyboard
      [[Button.mk ("Да, напомни") ("remind:later")],
       [Button.mk ("Нет, продолжим") ("resume:yes")]])

/-- The diagnostic-completed summary reply. -/
def diagDoneAction (chat : Int) (summary : String) : Action :=
  send_message_action chat (("Диагностика завершена.\n\n") ++ summary)
    (inline_keyboard
      [[Button.mk ("Перейти к тренажёру") ("action:training:start")],
       [Button.mk ("Ещё раз диагностику") ("action:diagnostic:start")],
       [Button.mk ("В меню") ("action:start")]])

/-- The sphere-set confirmation in the free-text branch (`event.text` printed
as Python renders it inside an f-string). -/
def sphereSetAction (chat : Int) (txt : Option String) : Action :=
  send_message_action chat
    (("Сфера установлена: ") ++ pyStrOpt txt ++ (". Что дальше?"))
    (inline_keyboard
      [[Button.mk ("Начать диагностику") ("action:diagnostic:start")],
       [Button.mk ("Перейти к тренажёру") ("action:training:start")],
       [Button.mk ("В меню") ("action:start")]])

/-- The "no cases could be prepared" reply in the skill-text branch. -/
def noCasesAction (chat : Int) : Action :=
  send_message_action chat
    ("Не удалось подготовить кейсы для этой темы. Попробуй снова или выбери другую.")
    (inline_keyboard [[Button.mk ("Отмена") ("action:start")]])

/-- The heuristic feedback message in the AI-exception fallback (retry-only
keyboard on a bad answer). -/
def feedbackFallbackAction (chat : Int) (er : Bool × String) : Action :=
  send_message_action chat er.2
    (inline_keyboard
      (if er.1 then [[Button.mk ("Дальше") ("case:next")]]
       else [[Button.mk ("Попробовать снова") ("case:retry")]]))

/-- The heuristic feedback message when no AI client is enabled (retry and
menu rows on a bad answer). -/
def feedbackPlainAction (chat : Int) (er : Bool × String) : Action :=
  send_message_action chat er.2
    (inline_keyboard
      (if er.1 then [[Button.mk ("Дальше") ("case:next")]]
       else [[Button.mk ("Попробовать снова") ("case:retry")],
             [Button.mk ("В меню") ("action:start")]]))

/-- The neutral reply to free text outside any pending mode. -/
def neutralTextAction (chat : Int) : Action :=
  send_message_action chat
    ("Принял сообщение. Чтобы продолжить тренировку, выбери действие в меню.")
    (inline_keyboard
      [[Button.mk ("Перейти к тренажёру") ("action:training:start")],
       [Button.mk ("Прогресс") ("action:menu:progress")],
       [Button.mk ("В меню") ("action:start")]])

/-- The result of one `ingest` dispatch: the accumulated actions, the final
in-memory progress record, and whether the handler returned on one of the
early paths that skip `dedup_actions`. -/
structure IngestOut where
  actions : List Action
  state : UserProgress
  early : Bool

/-- The `etype == "action"` chain of `ingest` (`backend/main.py`), branch for
branch in source order. -/
def handle_action (env : Env) (chat : Int) (st : UserProgress) (action_name : String) :
    IngestOut :=
  if action_name = "start" ∨ action_name = "menu:start" ∨ action_name = "action:start" then
    ⟨[startMenuAction chat], st, false⟩
  else if pyStartsWith action_name ("sphere:menu") then
    ⟨[spherePromptAction chat], set_sphere_pending_rec st true, false⟩
  else if action_name = "sphere:custom" then
    ⟨[spherePromptAction chat], set_sphere_pending_rec st true, false⟩
  else if pyStartsWith action_name ("sphere:") then
    match env.spheres.find? (fun p => p.1 = pyDrop action_name 7) with
    | some cl => ⟨[sphereChosenAction chat cl.2], set_sphere_rec st cl.1, false⟩
    | none => ⟨[unknownSphereAction chat env.spheres], st, false⟩
  else if action_name = "diagnostic:start" then
    let st := reset_diagnostic_rec st
    if ¬ st.sphere_chosen then
      ⟨[spherePromptAction chat], set_sphere_pending_rec st true, true⟩
    else
      let r := ensure_diagnostic_questions env st
      match r.1 with
      | [] => ⟨[diagFailAction chat], r.2, false⟩
      | q :: _ => ⟨[diagnostic_question_payload 0 r.1.length chat q], r.2, false⟩
  else if action_name = "training:start" then
    if ¬ st.sphere_chosen then
      ⟨[spherePromptAction chat], set_sphere_pending_rec st true, true⟩
    else if ¬ st.skill_chosen then
      ⟨[skillPromptAction chat], set_skill_pending_rec st true, true⟩
    else if st.training_case_pending ∧ st.training_cases ≠ [] then
      ⟨[training_case_payload st.skill st.training_index chat st.training_cases], st, true⟩
    else
      let st := set_training_pending_rec st true
      let st := { st with training_index := 0, training_cases := [] }
      let r := ensure_training_cases env st st.skill
      ⟨[training_case_payload r.2.skill 0 chat r.1], r.2, false⟩
  else if action_name = "menu:progress" then
    ⟨[unavailableAction chat], st, false⟩
  else if action_name = "menu:reminders" then
    ⟨[remindersMenuAction chat], st, false⟩
  else if action_name = "skill:feedback" then
    ⟨[skillPromptAction chat], set_skill_pending_rec st true, false⟩
  else if action_name = "skill:idp" then
    ⟨[skillPromptAction chat], set_skill_pending_rec st true, false⟩
  else if action_name = "menu:toc" then
    ⟨[unavailableAction chat], st, false⟩
  else
    ⟨[send_message_action chat ("Команда принята.") Keyboard.none], st, false⟩

/-- The `etype == "callback"` chain of `ingest` (`backend/main.py`), branch
for branch in source order. -/
def handle_callback (env : Env) (chat : Int) (st : UserProgress) (data : String) :
    IngestOut :=
  if pyStartsWith data ("diag:") then
    let st := { st with diagnostic_answers := st.diagnostic_answers ++ [data] }
    let next_idx := st.diagnostic_answers.length
    let questions :=
      if st.diagnostic_questions.isEmpty then env.staticDiagnostic
      else st.diagnostic_questions
    if next_idx < questions.length then
      ⟨[diagnostic_question_payload next_idx questions.length chat
          (questions.getD next_idx (Question.mk ("") []))],
        st, false⟩
    else
      let st := { st with diagnostic_done := true }
      let summary := interpret_diagnostic st.diagnostic_answers
      let summary := if env.aiEnabled then env.summarize.getD summary else summary
      ⟨[diagDoneAction chat summary], st, false⟩
  else if pyStartsWith data ("case:next") ∨ data = "resume:yes" then
    let st := set_training_pending_rec st true
    let st := increment_training_rec st
    let r := ensure_training_cases env st st.skill
    ⟨[training_case_payload r.2.skill r.2.training_index chat r.1], r.2, false⟩
  else if pyStartsWith data ("training:restart") then
    let st := { st with training_index := 0 }
    let st := set_training_pending_rec st true
    let r := ensure_training_cases env st st.skill
    ⟨[training_case_payload r.2.skill 0 chat r.1], r.2, false⟩
  else if pyStartsWith data ("remind:later") then
    ⟨[send_message_action chat ("Хорошо, напомню позже.") Keyboard.none], st, false⟩
  else if pyStartsWith data ("case:retry") then
    let st := set_training_pending_rec st true
    let r := ensure_training_cases env st st.skill
    ⟨[training_case_payload r.2.skill r.2.training_index chat r.1], r.2, false⟩
  else
    ⟨[send_message_action chat ("Сигнал получен.") Keyboard.none], st, false⟩

/-- The `etype == "text"` chain of `ingest` (`backend/main.py`), branch for
branch in source order; `case_text` only feeds the AI request and is not
modelled. -/
def handle_text (env : Env) (chat : Int) (st : UserProgress) (txt : Option String) :
    IngestOut :=
  if st.sphere_pending ∧ ¬ st.sphere_chosen then
    let t := txt.getD ("")
    let st := set_sphere_rec st (if t = "" then ("general") else t)
    ⟨[sphereSetAction chat txt], st, true⟩
  else if st.skill_pending ∧ ¬ st.skill_chosen then
    let s := pyStrip (txt.getD (""))
    let st := set_skill_rec st (if s = "" then ("другой навык") else s)
    let st := set_training_pending_rec st true
    let st := { st with training_index := 0, training_cases := [] }
    let r := ensure_training_cases env st st.skill
    let base := [send_message_action chat ("Готовлю тренинг, собираю первый кейс...") Keyboard.none]
    match r.1 with
    | [] => ⟨base ++ [noCasesAction chat], r.2, true⟩
    | _ => ⟨base ++ [training_case_payload r.2.skill 0 chat r.1], r.2, true⟩
  else if st.training_case_pending then
    let r := ensure_training_cases env st st.skill
    if env.aiEnabled then
      match env.buildActions with
      | some (a :: rest) =>
          let ai_actions := (a :: rest).map (attachNav chat)
          let st := if aiSaysNext ai_actions then set_training_pending_rec r.2 false else r.2
          ⟨ai_actions, st, false⟩
      | _ =>
          let er := evaluate_answer (txt.getD ("")) env.keywords env.evalChoice
          let st := if er.1 then set_training_pending_rec r.2 false else r.2
          ⟨[feedbackFallbackAction chat er], st, false⟩
    else
      let er := evaluate_answer (txt.getD ("")) env.keywords env.evalChoice
      let st := if er.1 then set_training_pending_rec r.2 false else r.2
      ⟨[feedbackPlainAction chat er], st, false⟩
  else
    ⟨[neutralTextAction chat], st, false⟩

/-- The event dispatch of `POST /ingest` (`backend/main.py`, function
`ingest`), with database side effects and the reminder task dropped and the
external calls read from `env`. State mutations follow the source order; the
store-backed setters act on the same cached record the handler holds, so they
appear as the corresponding `*_rec` field updates. -/
def ingest_core (env : Env) (chat : Int) (st : UserProgress) (ev : Event) : IngestOut :=
  let etype := pyLower ev.type
  if etype = "action" then handle_action env chat st (ev.action.getD (""))
  else if etype = "callback" then handle_callback env chat st (ev.data.getD (""))
  else if etype = "text" then handle_text env chat st ev.text
  else ⟨[send_message_action chat ("Событие принято.") Keyboard.none], st, false⟩

/-- The full `/ingest` response: early-return paths hand their action list to
the transport as-is, the fall-through path passes it through `dedup_actions`. -/
def ingest (env : Env) (chat : Int) (st : UserProgress) (ev : Event) :
    List Action × UserProgress :=
  let o := ingest_core env chat st ev
  (if o.early then o.actions else dedup_actions o.actions, o.state)

-- Concrete sample inputs used by witnesses and counterexamples ----------------

/-- An environment with AI disabled and empty catalogs. -/
def quietEnv : Env :=
  { aiEnabled := false, genDiagnostic := none, genCases := none, summarize := none,
    buildActions := none, evalChoice := 0, keywords := ai_positive_keywords,
    staticDiagnostic := [], casesFeedback := [], casesIdp := [], spheres := [],
    getCase := fun _ _ => ("") }

/-- A persisted progress row with visible progress in it. -/
def sampleRow : PyDict :=
  ({ defaultProgress with skill_chosen := true, training_index := 3, skill := "idp" }
    : UserProgress).to_dict

/-- A store whose cache is cold for every chat id but whose durable layer
holds `sampleRow` for every chat id. -/
def sampleStore : StoreState :=
  { cache := fun _ => none, db := fun _ => some sampleRow }

-- Helper lemmas about the deduplicator ---------------------------------------

theorem findEntry_append_none {m₁ m₂ : DMap} {k : String × String}
    (h₁ : findEntry m₁ k = Option.none) (h₂ : findEntry m₂ k = Option.none) :
    findEntry (m₁ ++ m₂) k = Option.none := by
  simp only [findEntry, Option.map_eq_none', List.find?_eq_none] at h₁ h₂ ⊢
  intro x hx
  rcases List.mem_append.mp hx with hx₁ | hx₂
  · exact h₁ x hx₁
  · exact h₂ x hx₂

theorem findEntry_singleton_ne {k k' : String × String} {e : DEntry} (h : k' ≠ k) :
    findEntry [(k', e)] k = Option.none := by
  unfold findEntry
  simp [List.find?, h]

/-- Folding the dedup loop over message actions with pairwise-new keys grows
the dict by one entry per action. -/
theorem foldl_dedupStep_length (as : List Action) :
    ∀ m : DMap, (∀ a ∈ as, a.type = "send_message") →
    (as.map normKey).Nodup →
    (∀ a ∈ as, findEntry m (normKey a) = Option.none) →
    (as.foldl dedupStep m).length = m.length + as.length := by
  induction as with
  | nil => intro m _ _ _; simp
  | cons a rest ih =>
      intro m hty hnd hfresh
      have hat : a.type = "send_message" := hty a (List.mem_cons_self a rest)
      have hfa : findEntry m (normKey a) = Option.none :=
        hfresh a (List.mem_cons_self a rest)
      have hstep : dedupStep m a = m ++ [(normKey a, { act := a, hasKb := hasKeyboard a })] := by
        unfold dedupStep
        rw [hat]
        simp [hfa]
      have hnd' : (rest.map normKey).Nodup := by
        simp only [List.map_cons, List.nodup_cons] at hnd
        exact hnd.2
      have hrest : ∀ b ∈ rest,
          findEntry (m ++ [(normKey a, { act := a, hasKb := hasKeyboard a })]) (normKey b)
            = Option.none := by
        intro b hb
        have hne : normKey b ≠ normKey a := by
          simp only [List.map_cons, List.nodup_cons] at hnd
          intro hEq
          exact hnd.1 (hEq ▸ List.mem_map_of_mem normKey hb)
        exact findEntry_append_none (hfresh b (List.mem_cons_of_mem a hb))
          (findEntry_singleton_ne (Ne.symm hne))
      have := ih (m ++ [(normKey a, { act := a, hasKb := hasKeyboard a })])
        (fun b hb => hty b (List.mem_cons_of_mem a hb)) hnd' hrest
      rw [List.foldl_cons, hstep, this]
      simp
      omega

/-- Each dedup iteration never shrinks the dict. -/
theorem dedupStep_length_le (m : DMap) (a : Action) :
    m.length ≤ (dedupStep m a).length := by
  unfold dedupStep
  split
  · split
    · exact Nat.le_refl _
    · simp
  · split
    · simp
    · split
      · simp [updateEntry]
      · exact Nat.le_refl _

/-- The first dedup iteration always populates the empty dict. -/
theorem dedupStep_nil_pos (a : Action) : 0 < (dedupStep [] a).length := by
  unfold dedupStep
  split <;> simp [findEntry]

/-- A non-empty input leaves the dedup dict non-empty. -/
theorem foldl_dedupStep_pos (as : List Action) :
    ∀ m : DMap, 0 < m.length + as.length → 0 < (as.foldl dedupStep m).length := by
  induction as with
  | nil => intro m h; simpa using h
  | cons a rest ih =>
      intro m _
      have h1 : 0 < (dedupStep m a).length := by
        cases m with
        | nil => exact dedupStep_nil_pos a
        | cons x xs =>
            have := dedupStep_length_le (x :: xs) a
            have hx : 0 < (x :: xs).length := by simp
            omega
      have := ih (dedupStep m a) (by omega)
      simpa using this

/-- Deduplication of a non-empty action list is non-empty. -/
theorem dedup_actions_pos (as : List Action) (h : 0 < as.length) :
    0 < (dedup_actions as).length := by
  unfold dedup_actions
  rw [List.length_map]
  exact foldl_dedupStep_pos as [] (by simpa using h)

-- Claim C1 --------------------------------------------------------------------

/-- C1 counterexample: two `send_message` actions with the same text but
different chat ids have pairwise-distinct `(chatId, text)` pairs, yet
`dedup_actions` merges them into a single action, so the output length is 1,
not 2. -/
theorem dedup_actions_merges_distinct_chats :
    (send_message_action 1 ("hi") Keyboard.none).chat_id ≠
      (send_message_action 2 ("hi") Keyboard.none).chat_id ∧
    (dedup_actions
      [send_message_action 1 ("hi") Keyboard.none,
       send_message_action 2 ("hi") Keyboard.none]).length = 1 := by
  decide

/-- C1 (amended): the merge key of `dedup_actions` is `(text, parse_mode)`
(`normKey`), not `(chat id, text)`: for every list of `send_message` actions
whose normalised `(text, parse_mode)` keys are pairwise distinct, the output
has the same length as the input; actions with identical text but different
chat ids share a key and are merged. -/
theorem dedup_actions_length_of_nodup_keys (as : List Action)
    (hty : ∀ a ∈ as, a.type = "send_message")
    (hnd : (as.map normKey).Nodup) :
    (dedup_actions as).length = as.length := by
  unfold dedup_actions
  rw [List.length_map]
  have h := foldl_dedupStep_length as [] hty hnd (fun a _ => by simp [findEntry])
  simpa using h

/-- C1 witness: the amended theorem applied to two actions with different
texts. -/
theorem dedup_actions_length_of_nodup_keys_witness :
    (dedup_actions
      [send_message_action 1 ("a") Keyboard.none,
       send_message_action 1 ("b") Keyboard.none]).length = 2 := by
  have h := dedup_actions_length_of_nodup_keys
    [send_message_action 1 ("a") Keyboard.none,
     send_message_action 1 ("b") Keyboard.none]
    (by decide) (by decide)
  simpa using h

-- Claim C2 --------------------------------------------------------------------

/-- C2 counterexample: two `send_message` actions share a key and both carry
non-empty keyboards; the deduplicator keeps the EARLIER one, not the later
one as the claim states. -/
theorem dedup_actions_tie_keeps_first :
    (send_message_action 5 ("t") (inline_keyboard [[Button.mk ("x") ("d1")]]) ≠
      send_message_action 5 ("t") (inline_keyboard [[Button.mk ("y") ("d2")]])) ∧
    dedup_actions
      [send_message_action 5 ("t") (inline_keyboard [[Button.mk ("x") ("d1")]]),
       send_message_action 5 ("t") (inline_keyboard [[Button.mk ("y") ("d2")]])] =
      [send_message_action 5 ("t") (inline_keyboard [[Button.mk ("x") ("d1")]])] := by
  decide

/-- C2 (amended): when two `send_message` actions share the deduplication key,
the output contains exactly one action for that key; an action carrying a
non-empty keyboard wins over one without regardless of arrival order, and on
ties (both with keyboards, or neither) the EARLIER one in processing order
wins. -/
theorem dedup_actions_pair_same_key (a1 a2 : Action)
    (h1 : a1.type = "send_message") (h2 : a2.type = "send_message")
    (hk : normKey a1 = normKey a2) :
    dedup_actions [a1, a2] =
      [if hasKeyboard a2 && !hasKeyboard a1 then a2 else a1] := by
  unfold dedup_actions
  simp only [List.foldl_cons, List.foldl_nil]
  have s1 : dedupStep [] a1 = [(normKey a1, { act := a1, hasKb := hasKeyboard a1 })] := by
    unfold dedupStep
    rw [h1]
    simp [findEntry]
  rw [s1]
  have hfind : findEntry [(normKey a1, { act := a1, hasKb := hasKeyboard a1 })] (normKey a2) =
      some { act := a1, hasKb := hasKeyboard a1 } := by
    unfold findEntry
    simp [List.find?, hk.symm]
  have s2 : dedupStep [(normKey a1, { act := a1, hasKb := hasKeyboard a1 })] a2 =
      if hasKeyboard a2 && !hasKeyboard a1 then
        [(normKey a1, { act := a2, hasKb := hasKeyboard a2 })]
      else [(normKey a1, { act := a1, hasKb := hasKeyboard a1 })] := by
    unfold dedupStep
    rw [h2]
    rw [if_neg (by decide : ¬(("send_message" : String) ≠ "send_message"))]
    rw [hfind]
    dsimp only
    by_cases hb : (hasKeyboard a2 && !hasKeyboard a1) = true
    · rw [if_pos hb, if_pos hb]
      simp [updateEntry, hk]
    · rw [if_neg hb, if_neg hb]
  rw [s2]
  by_cases hb : hasKeyboard a2 && !hasKeyboard a1
  · simp [hb]
  · simp [hb]

/-- C2 witness: a keyboard-less action followed by one with a keyboard under
the same key collapses to the keyboard-carrying one. -/
theorem dedup_actions_pair_same_key_witness :
    dedup_actions
      [send_message_action 5 ("t") Keyboard.none,
       send_message_action 5 ("t") (inline_keyboard [[Button.mk ("y") ("d2")]])] =
      [if hasKeyboard (send_message_action 5 ("t") (inline_keyboard [[Button.mk ("y") ("d2")]])) &&
          !hasKeyboard (send_message_action 5 ("t") Keyboard.none) then
        send_message_action 5 ("t") (inline_keyboard [[Button.mk ("y") ("d2")]])
      else send_message_action 5 ("t") Keyboard.none] :=
  dedup_actions_pair_same_key
    (send_message_action 5 ("t") Keyboard.none)
    (send_message_action 5 ("t") (inline_keyboard [[Button.mk ("y") ("d2")]]))
    rfl rfl rfl

-- Claim C3 --------------------------------------------------------------------

/-- A branch combinator: an if-expression of out-records with non-empty
action lists has a non-empty action list. -/
theorem pos_ite (c : Prop) [Decidable c] (a b : IngestOut)
    (ha : 0 < a.actions.length) (hb : 0 < b.actions.length) :
    0 < (if c then a else b).actions.length := by
  split
  · exact ha
  · exact hb

/-- Every branch of the action-event chain emits at least one action. -/
theorem handle_action_actions_pos (env : Env) (chat : Int) (st : UserProgress)
    (an : String) : 0 < (handle_action env chat st an).actions.length := by
  unfold handle_action
  refine pos_ite _ _ _ (by simp) ?_
  refine pos_ite _ _ _ (by simp) ?_
  refine pos_ite _ _ _ (by simp) ?_
  refine pos_ite _ _ _ ?_ ?_
  · cases hf : env.spheres.find? (fun p => p.1 = pyDrop an 7) <;> simp
  refine pos_ite _ _ _ ?_ ?_
  · dsimp only
    refine pos_ite _ _ _ (by simp) ?_
    cases hq : (ensure_diagnostic_questions env (reset_diagnostic_rec st)).1 <;> simp
  refine pos_ite _ _ _ ?_ ?_
  · refine pos_ite _ _ _ (by simp) ?_
    refine pos_ite _ _ _ (by simp) ?_
    refine pos_ite _ _ _ (by simp) ?_
    simp
  refine pos_ite _ _ _ (by simp) ?_
  refine pos_ite _ _ _ (by simp) ?_
  refine pos_ite _ _ _ (by simp) ?_
  refine pos_ite _ _ _ (by simp) ?_
  refine pos_ite _ _ _ (by simp) (by simp)

/-- Every branch of the callback-event chain emits at least one action. -/
theorem handle_callback_actions_pos (env : Env) (chat : Int) (st : UserProgress)
    (data : String) : 0 < (handle_callback env chat st data).actions.length := by
  unfold handle_callback
  refine pos_ite _ _ _ ?_ ?_
  · dsimp only
    refine pos_ite _ _ _ (by simp) (by simp)
  refine pos_ite _ _ _ (by simp) ?_
  refine pos_ite _ _ _ (by simp) ?_
  refine pos_ite _ _ _ (by simp) ?_
  refine pos_ite _ _ _ (by simp) (by simp)

/-- Every branch of the text-event chain emits at least one action. -/
theorem handle_text_actions_pos (env : Env) (chat : Int) (st : UserProgress)
    (txt : Option String) : 0 < (handle_text env chat st txt).actions.length := by
  unfold handle_text
  refine pos_ite _ _ _ (by simp) ?_
  refine pos_ite _ _ _ ?_ ?_
  · dsimp only
    cases hq : (ensure_training_cases env
        { set_training_pending_rec
            (set_skill_rec st
              (if pyStrip (txt.getD ("")) = "" then ("другой навык") else pyStrip (txt.getD (""))))
            true with
          training_index := 0, training_cases := [] }
        (set_training_pending_rec
            (set_skill_rec st
              (if pyStrip (txt.getD ("")) = "" then ("другой навык") else pyStrip (txt.getD (""))))
            true).skill).1 <;> simp
  refine pos_ite _ _ _ ?_ (by simp)
  dsimp only
  refine pos_ite _ _ _ ?_ (by simp)
  cases env.buildActions with
  | none => simp
  | some l => cases l <;> simp

/-- Every dispatch branch of `ingest_core` emits at least one action. -/
theorem ingest_core_actions_pos (env : Env) (chat : Int) (st : UserProgress) (ev : Event) :
    0 < (ingest_core env chat st ev).actions.length := by
  unfold ingest_core
  dsimp only
  repeat' split
  · exact handle_action_actions_pos env chat st _
  · exact handle_callback_actions_pos env chat st _
  · exact handle_text_actions_pos env chat st _
  · simp

/-- C3: for every inbound event (every event type, action name, callback
payload and external-call outcome), the `/ingest` handler returns a non-empty
action list — the fallback branches emit an explanatory message, and
deduplication preserves non-emptiness. -/
theorem ingest_actions_nonempty (env : Env) (chat : Int) (st : UserProgress) (ev : Event) :
    0 < (ingest env chat st ev).1.length := by
  have h := ingest_core_actions_pos env chat st ev
  unfold ingest
  dsimp only
  split
  · exact h
  · exact dedup_actions_pos _ h

-- Claim C4 --------------------------------------------------------------------

/-- C4 counterexample: with the AI generator configured and enabled but
failing, and a non-empty static catalog available, `ensure_diagnostic_questions`
returns the empty list instead of falling back to the catalog (the source
comments: "Only fallback to static when AI недоступен"). -/
theorem ensure_diagnostic_questions_ai_failure_empty :
    (ensure_diagnostic_questions
      { quietEnv with
        aiEnabled := true
        genDiagnostic := none
        staticDiagnostic := [Question.mk ("q") [("a")]] }
      defaultProgress).1 = [] := by
  rfl

/-- C4 (amended): when the AI generator is enabled and its call fails, the
diagnostic question list `ensure_diagnostic_questions` returns is EMPTY; the
static catalog is used only when no AI generator is configured and enabled
(the `/ingest` diagnostic branch then emits an explanatory message for the
empty list). -/
theorem ensure_diagnostic_questions_failure_behavior (env : Env) (st : UserProgress)
    (hq : st.diagnostic_questions = []) :
    ((env.aiEnabled = true ∧ env.genDiagnostic = none) →
      (ensure_diagnostic_questions env st).1 = []) ∧
    (env.aiEnabled = false →
      (ensure_diagnostic_questions env st).1 = env.staticDiagnostic) := by
  constructor
  · rintro ⟨hai, hfail⟩
    unfold ensure_diagnostic_questions
    simp [hai, hq, hfail]
  · intro hai
    unfold ensure_diagnostic_questions
    simp [hai, hq]

/-- C4 witness: both halves of the amended theorem at concrete environments. -/
theorem ensure_diagnostic_questions_failure_behavior_witness :
    (ensure_diagnostic_questions
      { quietEnv with aiEnabled := true, genDiagnostic := none }
      defaultProgress).1 = [] ∧
    (ensure_diagnostic_questions
      { quietEnv with staticDiagnostic := [Question.mk ("q") [("a")]] }
      defaultProgress).1 =
      ({ quietEnv with staticDiagnostic := [Question.mk ("q") [("a")]] } : Env).staticDiagnostic := by
  constructor
  · exact (ensure_diagnostic_questions_failure_behavior _ _ rfl).1 ⟨rfl, rfl⟩
  · exact (ensure_diagnostic_questions_failure_behavior _ _ rfl).2 rfl

-- Claim C5 --------------------------------------------------------------------

/-- C5 counterexample: `set_sphere_pending(chat, True)` leaves the stored
diagnostic questions untouched — they are NOT reset. -/
theorem set_sphere_pending_keeps_questions :
    (set_sphere_pending_rec
      { defaultProgress with diagnostic_questions := [Question.mk ("q") [("a")]] }
      true).diagnostic_questions = [Question.mk ("q") [("a")]] := by
  rfl

/-- C5 (amended): setting sphere-pending to true resets the training state
(`training_case_pending := false`, `training_index := 0`,
`training_cases := []`, and also `sphere_chosen := false`) but leaves the
stored diagnostic questions and answers unchanged; the skill- and
training-pending setters change only their own flag. -/
theorem set_sphere_pending_resets (st : UserProgress) (b : Bool) :
    ((set_sphere_pending_rec st true).training_case_pending = false ∧
     (set_sphere_pending_rec st true).training_index = 0 ∧
     (set_sphere_pending_rec st true).training_cases = [] ∧
     (set_sphere_pending_rec st true).sphere_chosen = false ∧
     (set_sphere_pending_rec st true).diagnostic_questions = st.diagnostic_questions ∧
     (set_sphere_pending_rec st true).diagnostic_answers = st.diagnostic_answers) ∧
    set_skill_pending_rec st b = { st with skill_pending := b } ∧
    set_training_pending_rec st b = { st with training_case_pending := b } := by
  exact ⟨⟨rfl, rfl, rfl, rfl, rfl, rfl⟩, rfl, rfl⟩

-- Claim C6 --------------------------------------------------------------------

/-- The `diag:` callback branch appends the payload to `diagnostic_answers`
unconditionally and never changes `diagnostic_questions`. -/
theorem handle_callback_diag_state (env : Env) (chat : Int) (st : UserProgress)
    (data : String) (hd : pyStartsWith data ("diag:") = true) :
    ((handle_callback env chat st data).state).diagnostic_answers =
      st.diagnostic_answers ++ [data] ∧
    ((handle_callback env chat st data).state).diagnostic_questions =
      st.diagnostic_questions := by
  unfold handle_callback
  rw [if_pos hd]
  dsimp only
  repeat' split
  all_goals exact ⟨rfl, rfl⟩

/-- C6 counterexample: the invariant `len(diagnosticAnswers) ≤
len(diagnosticQuestions)` holds in the reachable default state, but one
`diag:` callback appends an answer while no questions are stored, leaving a
reachable state that violates it. -/
theorem diag_callback_breaks_invariant :
    defaultProgress.diagnostic_answers.length ≤
      defaultProgress.diagnostic_questions.length ∧
    ((ingest quietEnv 0 defaultProgress
        { type := "callback", data := some ("diag:0:0") }).2).diagnostic_questions.length <
      ((ingest quietEnv 0 defaultProgress
        { type := "callback", data := some ("diag:0:0") }).2).diagnostic_answers.length := by
  decide

/-- C6 (amended): the bound `len(diagnosticAnswers) ≤ len(diagnosticQuestions)`
is preserved by a `diag:` callback only when it held strictly before the
event (the handler appends one answer and leaves the stored questions
unchanged); it is not an invariant of all reachable states, since the handler
also appends when the bound is already tight or no questions are stored. -/
theorem ingest_diag_preserves_answer_bound (env : Env) (chat : Int)
    (st : UserProgress) (ev : Event)
    (hty : pyLower ev.type = "callback")
    (hd : pyStartsWith (ev.data.getD ("")) ("diag:") = true)
    (hlt : st.diagnostic_answers.length < st.diagnostic_questions.length) :
    ((ingest env chat st ev).2).diagnostic_answers.length ≤
      ((ingest env chat st ev).2).diagnostic_questions.length := by
  have hcore : (ingest env chat st ev).2 = (ingest_core env chat st ev).state := rfl
  rw [hcore]
  have hdisp : ingest_core env chat st ev = handle_callback env chat st (ev.data.getD ("")) := by
    unfold ingest_core
    rw [hty]
    rfl
  rw [hdisp]
  have h := handle_callback_diag_state env chat st (ev.data.getD ("")) hd
  rw [h.1, h.2]
  simp only [List.length_append, List.length_singleton]
  omega

/-- C6 witness: a `diag:` answer arriving while zero of two stored questions
are answered keeps the bound. -/
theorem ingest_diag_preserves_answer_bound_witness :
    ((ingest quietEnv 0
        { defaultProgress with
          diagnostic_questions := [Question.mk ("q1") [("a")], Question.mk ("q2") [("b")]] }
        { type := "callback", data := some ("diag:0:0") }).2).diagnostic_answers.length ≤
      ((ingest quietEnv 0
        { defaultProgress with
          diagnostic_questions := [Question.mk ("q1") [("a")], Question.mk ("q2") [("b")]] }
        { type := "callback", data := some ("diag:0:0") }).2).diagnostic_questions.length :=
  ingest_diag_preserves_answer_bound quietEnv 0
    { defaultProgress with
      diagnostic_questions := [Question.mk ("q1") [("a")], Question.mk ("q2") [("b")]] }
    { type := "callback", data := some ("diag:0:0") }
    (by decide) (by decide) (by decide)

-- Claim C7 --------------------------------------------------------------------

/-- C7: for every index at or past the end of the case list,
`training_case_payload` returns the "cases exhausted" message with the
restart, skill-change and menu controls; and for every in-range index it
returns the case message built from a proof-guarded list access, so no
out-of-range access happens for any index and any case list. -/
theorem training_case_payload_exhausted (skill : String) (idx : Nat) (chat : Int)
    (cases : List String) (h : cases.length ≤ idx) :
    (training_case_payload skill idx chat cases =
      send_message_action chat
        ("Кейсы закончились. Можем пройти заново или выбрать другой навык.")
        (inline_keyboard
          [[Button.mk ("С начала") ("training:restart")],
           [Button.mk ("Выбрать навык") ("action:skill:feedback")],
           [Button.mk ("Назад в меню") ("action:start")]])) ∧
    (∀ j : Nat, ∀ hj : j < cases.length,
      training_case_payload skill j chat cases =
        send_message_action chat
          (("Кейс ") ++ toString (j + 1) ++ (":\n\n") ++ cases.get ⟨j, hj⟩)
          (inline_keyboard
            [[Button.mk ("Напомнить позже") ("remind:later")],
             [Button.mk ("В меню") ("action:start")],
             [Button.mk ("Выбрать навык") ("action:skill:feedback")]])) := by
  constructor
  · unfold training_case_payload
    rw [dif_pos h]
  · intro j hj
    unfold training_case_payload
    rw [dif_neg (by omega)]

/-- C7 witness: index 5 on a five-case list yields the exhausted action; index
0 serves the first case. -/
theorem training_case_payload_exhausted_witness :
    training_case_payload ("feedback") 5 7 [("k1"), ("k2"), ("k3"), ("k4"), ("k5")] =
      send_message_action 7
        ("Кейсы закончились. Можем пройти заново или выбрать другой навык.")
        (inline_keyboard
          [[Button.mk ("С начала") ("training:restart")],
           [Button.mk ("Выбрать навык") ("action:skill:feedback")],
           [Button.mk ("Назад в меню") ("action:start")]]) :=
  (training_case_payload_exhausted ("feedback") 5 7
    [("k1"), ("k2"), ("k3"), ("k4"), ("k5")] (by decide)).1

-- Claim C8 --------------------------------------------------------------------

/-- C8 counterexample: on an answer that scores as good, the feedback text is
drawn by `random.choice` from two distinct replies, so two calls on the same
input can return different pairs — the evaluator is not deterministic as a
whole. -/
theorem evaluate_answer_random_feedback :
    evaluate_answer ("пример действия") ai_positive_keywords 0 ≠
      evaluate_answer ("пример действия") ai_positive_keywords 1 := by
  decide

/-- C8 (amended): for every answer text and fixed keyword configuration the
boolean verdict is deterministic, and whenever the verdict is not good the
whole `(isGood, feedbackText)` pair is deterministic; only the success reply
depends on the `random.choice` draw. -/
theorem evaluate_answer_verdict_deterministic (text : String) (keywords : List String)
    (c₁ c₂ : Nat) :
    (evaluate_answer text keywords c₁).1 = (evaluate_answer text keywords c₂).1 ∧
    ((evaluate_answer text keywords c₁).1 = true ∨
      evaluate_answer text keywords c₁ = evaluate_answer text keywords c₂) := by
  by_cases h : 2 ≤ (keywords.filter (fun kw => containsSub (pyLower text) kw)).length +
      (if 12 < pyWords text then 1 else 0)
  · simp [evaluate_answer, h]
  · simp [evaluate_answer, h]

-- Claim C9 --------------------------------------------------------------------

/-- C9: on a cold cache (`cache id = none`), every mutating setter of the
state store builds its record from a fresh default-initialized `UserProgress`
and persists that — the durable row it writes is a function of the setter's
arguments alone and overwrites whatever was stored before; only `get` reads
the durable copy back (`from_dict` of the stored row). -/
theorem state_store_setters_ignore_db (s : StoreState) (id : Int)
    (h : s.cache id = none) (skill sphere : String) (b : Bool) :
    (StateStore.reset_diagnostic s id).db id =
      some (reset_diagnostic_rec defaultProgress).to_dict ∧
    (StateStore.increment_training s id).db id =
      some (increment_training_rec defaultProgress).to_dict ∧
    (StateStore.set_skill s id skill).db id =
      some (set_skill_rec defaultProgress skill).to_dict ∧
    (StateStore.set_skill_pending s id b).db id =
      some (set_skill_pending_rec defaultProgress b).to_dict ∧
    (StateStore.set_sphere s id sphere).db id =
      some (set_sphere_rec defaultProgress sphere).to_dict ∧
    (StateStore.set_sphere_pending s id b).db id =
      some (set_sphere_pending_rec defaultProgress b).to_dict ∧
    (StateStore.set_training_pending s id b).db id =
      some (set_training_pending_rec defaultProgress b).to_dict ∧
    ((StateStore.get s id).1 =
      match s.db id with
      | some d => UserProgress.from_dict d
      | none => defaultProgress) := by
  refine ⟨?_, ?_, ?_, ?_, ?_, ?_, ?_, ?_⟩
  · simp [StateStore.reset_diagnostic, StateStore.mutate, updf, h]
  · simp [StateStore.increment_training, StateStore.mutate, updf, h]
  · simp [StateStore.set_skill, StateStore.mutate, updf, h]
  · simp [StateStore.set_skill_pending, StateStore.mutate, updf, h]
  · simp [StateStore.set_sphere, StateStore.mutate, updf, h]
  · simp [StateStore.set_sphere_pending, StateStore.mutate, updf, h]
  · simp [StateStore.set_training_pending, StateStore.mutate, updf, h]
  · unfold StateStore.get
    rw [h]
    cases hd : s.db id with
    | some d => rfl
    | none => rfl

/-- C9 witness: on `sampleStore` (cold cache, durable row with progress) the
skill-pending setter persists the default-derived record — erasing the stored
progress — while `get` would have restored the stored row. -/
theorem state_store_setters_ignore_db_witness :
    (StateStore.set_skill_pending sampleStore 0 true).db 0 =
      some (set_skill_pending_rec defaultProgress true).to_dict ∧
    (StateStore.get sampleStore 0).1 = UserProgress.from_dict sampleRow := by
  have h := state_store_setters_ignore_db sampleStore 0 rfl ("x") ("y") true
  exact ⟨h.2.2.2.1, h.2.2.2.2.2.2.2⟩

-- Claim C10 -------------------------------------------------------------------

/-- C10: serialization round-trip — `UserProgress.from_dict (p.to_dict)`
restores every field of `p` exactly. -/
theorem from_dict_to_dict (p : UserProgress) :
    UserProgress.from_dict p.to_dict = p := by
  cases p
  rfl

end STB
